import Mathlib

/-!
Verification of the `wifi_recon` module of bettercap (file
`src/modules/wifi_recon.go`), shallowly embedded in Lean 4.

Modelling conventions:
* Go `net.HardwareAddr` is a byte slice; we model it as `List Nat`.
  The Go tests `len(addr) > 0` / `len(addr) == 0` become `addr ≠ []` /
  `addr = []`, and `bytes.Compare(a, b) == 0` on byte slices is list
  equality.
* A decoded `gopacket.Packet` is modelled by the layers the module
  queries: an optional radiotap layer, an optional 802.11 information
  element, an optional base 802.11 header, plus the raw bytes
  (`packet.Data()`), modelled as `List Nat` so `len` is `List.length`.
* Go's `int` division truncates toward zero, which is `Int.tdiv`.
* Functions that only perform side effects (`discoverAccessPoints`,
  `discoverClients`, `sendDeauthPacket`, the capture-loop body) are
  modelled as pure functions returning the calls / frames / actions they
  would emit, in program order; fallible external steps (pcap setup,
  frame construction and transmission) are parametrised by explicit
  success/error oracles.
-/

namespace BettercapWifiRecon

/-- Hardware address (Go `net.HardwareAddr`): a byte slice. -/
abbrev HwAddr := List Nat

/-- Broadcast MAC `ff:ff:ff:ff:ff:ff` (`network.BroadcastMac`). -/
def BroadcastMac : HwAddr := [255, 255, 255, 255, 255, 255]

/-- Radiotap layer (`layers.RadioTap`), restricted to the one field the
module reads: `ChannelFrequency` in MHz. -/
structure RadioTap where
  channelFrequency : Int
deriving DecidableEq

/-- Numeric identifier of the SSID information element
(`layers.Dot11InformationElementIDSSID`). -/
def Dot11InformationElementIDSSID : Nat := 0

/-- 802.11 information element layer (`layers.Dot11InformationElement`),
restricted to the fields the module reads: `ID` and `Info` (the SSID
bytes; `string(Info)` is non-empty iff `Info` is non-empty). -/
structure Dot11InformationElement where
  id : Nat
  info : List Nat
deriving DecidableEq

/-- Main 802.11 frame type (`dot11.Type.MainType()`). -/
inductive Dot11MainType
  | mgmt
  | ctrl
  | data
  | reserved
deriving DecidableEq

/-- Base 802.11 header layer (`layers.Dot11`), restricted to the fields
the module reads: main type, the ToDS/FromDS flags, and the four
address fields (absent addresses are the empty slice `[]`). -/
structure Dot11 where
  mainType : Dot11MainType
  toDS : Bool
  fromDS : Bool
  address1 : HwAddr
  address2 : HwAddr
  address3 : HwAddr
  address4 : HwAddr
deriving DecidableEq

/-- Decoded captured frame (`gopacket.Packet`), as seen by this module:
the three layers it queries via `packet.Layer(...)` (each `Option` since
`Layer` returns nil when absent) and the raw frame bytes
(`packet.Data()`). -/
structure Packet where
  radiotap : Option RadioTap
  dot11info : Option Dot11InformationElement
  dot11 : Option Dot11
  data : List Nat
deriving DecidableEq

/-- Frequency-to-channel conversion, `mhz2chan` in the source:

```go
func mhz2chan(freq int) int {
    if freq <= 2484 {
        return ((freq - 2412) / 5) + 1
    }
    return 0
}
```

Go `/` on `int` truncates toward zero, hence `Int.tdiv`. -/
def mhz2chan (freq : Int) : Int :=
  if freq ≤ 2484 then (freq - 2412).tdiv 5 + 1 else 0

/-- Argument tuple of a `w.wifi.AddIfNew(ssid, mac, hasName, channel)`
call emitted by the discovery functions. The `ssid` is kept as the SSID
bytes (the Go code passes `string(dot11info.Info)`), and `mac` as the
raw hardware address (the Go code passes its canonical string form). -/
structure AddIfNewCall where
  ssid : List Nat
  mac : HwAddr
  hasName : Bool
  channel : Int
deriving DecidableEq

/-- AP discovery, `discoverAccessPoints` in the source: returns the
`AddIfNew` call the Go function would make, or `none` on any of its
silent early returns (missing radiotap layer, missing information
element, element id not SSID, missing 802.11 header, destination not
broadcast, or empty SSID). -/
def discoverAccessPoints (p : Packet) : Option AddIfNewCall :=
  match p.radiotap with
  | none => none
  | some radiotap =>
    match p.dot11info with
    | none => none
    | some dot11info =>
      if dot11info.id ≠ Dot11InformationElementIDSSID then none
      else
        match p.dot11 with
        | none => none
        | some dot11 =>
          let ssid := dot11info.info
          let bssid := dot11.address3
          let dst := dot11.address1
          if dst = BroadcastMac ∧ ssid.length > 0 then
            some { ssid := ssid, mac := bssid, hasName := true,
                   channel := mhz2chan radiotap.channelFrequency }
          else none

/-- Client discovery against AP filter `bs`, `discoverClients` in the
source: returns the `AddIfNew` call the Go function would make, or
`none` on any of its silent early returns (missing radiotap layer,
missing 802.11 header, main type not Data, not station-to-AP direction,
or BSSID field not equal to `bs`). -/
def discoverClients (bs : HwAddr) (p : Packet) : Option AddIfNewCall :=
  match p.radiotap with
  | none => none
  | some radiotap =>
    match p.dot11 with
    | none => none
    | some dot11 =>
      if dot11.mainType ≠ Dot11MainType.data then none
      else
        let toDS := dot11.toDS
        let fromDS := dot11.fromDS
        if toDS = true ∧ fromDS = false then
          let src := dot11.address2
          let bssid := dot11.address1
          if bssid = bs then
            some { ssid := [], mac := src, hasName := false,
                   channel := mhz2chan radiotap.channelFrequency }
          else none
        else none

/-- Traffic statistics: cumulative byte count per hardware address
(`WiFiStats`). Modelled as a total function, 0 for unseen addresses. -/
abbrev WiFiStats := HwAddr → Nat

/-- Modelled from the spec: `WiFiStats.Collect(hwAddr, nBytes)` (section
4.2) — its source file is not part of `src/`. It adds `nBytes` to the
running total for `hwAddr`; when `hwAddr` is the zero/empty address
(an absent frame field) it is a no-op. -/
def Collect (stats : WiFiStats) (a : HwAddr) (n : Nat) : WiFiStats :=
  if a = [] then stats
  else fun b => if b = a then stats b + n else stats b

/-- Statistics update per frame, `updateStats` in the source: silently
returns the unchanged stats unless the frame has a radiotap layer, an
information element with the SSID id, and a base 802.11 header; for
frames passing those guards it collects `len(packet.Data())` bytes
under each of the four header addresses. -/
def updateStats (stats : WiFiStats) (p : Packet) : WiFiStats :=
  match p.radiotap with
  | none => stats
  | some _ =>
    match p.dot11info with
    | none => stats
    | some dot11info =>
      if dot11info.id ≠ Dot11InformationElementIDSSID then stats
      else
        match p.dot11 with
        | none => stats
        | some dot11 =>
          let bytes := p.data.length
          Collect (Collect (Collect (Collect stats
            dot11.address1 bytes) dot11.address2 bytes)
            dot11.address3 bytes) dot11.address4 bytes

/-- Reason code of a forged deauthentication frame
(`layers.Dot11Reason...`); the module only ever uses
`Dot11ReasonClass2FromNonAuth`. -/
inductive Dot11Reason
  | class2FromNonAuth
  | otherReason
deriving DecidableEq

/-- Argument tuple of a `packets.NewDot11Deauth(a1, a2, a3, type,
reason, seq)` call: the three addresses in call order, the reason code
and the sequence number (the frame type is always
`Dot11TypeMgmtDeauthentication` and is omitted). -/
structure DeauthFrame where
  a1 : HwAddr
  a2 : HwAddr
  a3 : HwAddr
  reason : Dot11Reason
  seq : Nat
deriving DecidableEq

/-- Forged frame of the AP-to-client direction for sequence number
`seq`: the source's first `NewDot11Deauth(ap, client, ap, ..., seq)`
call of a loop iteration. -/
def deauthFrameAPToClient (ap client : HwAddr) (seq : Nat) : DeauthFrame :=
  { a1 := ap, a2 := client, a3 := ap,
    reason := Dot11Reason.class2FromNonAuth, seq := seq }

/-- Forged frame of the client-to-AP direction for sequence number
`seq`: the source's second `NewDot11Deauth(client, ap, ap, ..., seq)`
call of a loop iteration. -/
def deauthFrameClientToAP (ap client : HwAddr) (seq : Nat) : DeauthFrame :=
  { a1 := client, a2 := ap, a3 := ap,
    reason := Dot11Reason.class2FromNonAuth, seq := seq }

/-- Deauthentication burst, `sendDeauthPacket` in the source: for each
`seq` in `0..63` it builds and transmits the AP-to-client frame, then
the client-to-AP frame. `ok1 seq` (resp. `ok2 seq`) is true when both
construction and transmission of the first (resp. second) frame of that
iteration succeed; on a failure the Go code logs and `continue`s to the
next sequence number, so a first-frame failure also skips that
iteration's second frame. The result is the list of successfully
transmitted frames in transmission order. -/
def sendDeauthPacket (ap client : HwAddr) (ok1 ok2 : Nat → Bool) :
    List DeauthFrame :=
  (List.range 64).flatMap fun seq =>
    if ok1 seq then
      deauthFrameAPToClient ap client seq ::
        (if ok2 seq then [deauthFrameClientToAP ap client seq] else [])
    else []

/-- Observable outcome of `startDeauth`: either the list of
`sendDeauthPacket(ap, client)` bursts it issues (in order), the
"No base station or client set." error, or a nil-pointer dereference of
`w.wifi` (reading `w.wifi.Stations` with `w.wifi == nil`). -/
inductive DeauthOutcome
  | bursts (pairs : List (HwAddr × HwAddr))
  | targetError (msg : String)
  | nilDereference
deriving DecidableEq

/-- Deauth entry point, `startDeauth` in the source. `wifi` is the
`w.wifi` registry pointer: `none` models the nil pointer (no successful
`Start` has run), `some stations` models an initialized registry whose
stations carry the listed hardware addresses (`station.HW` for each
entry of `w.wifi.Stations`). -/
def startDeauth (accessPoint client : HwAddr)
    (wifi : Option (List HwAddr)) : DeauthOutcome :=
  let isTargetingAP := accessPoint ≠ []
  if isTargetingAP then
    let isTargetingCLI := client ≠ []
    if isTargetingCLI then
      DeauthOutcome.bursts [(accessPoint, client)]
    else
      match wifi with
      | none => DeauthOutcome.nilDereference
      | some stations =>
        DeauthOutcome.bursts (stations.map fun hw => (accessPoint, hw))
  else
    DeauthOutcome.targetError "No base station or client set."

/-- Error/success outcomes of the fallible pcap steps taken by
`Configure`, in program order. Each field is `none` when the
corresponding call succeeds and `some msg` when it fails. -/
structure CaptureEnv where
  newInactiveHandleErr : Option String
  setRFMonErr : Option String
  setSnapLenErr : Option String
  setTimeoutErr : Option String
  activateErr : Option String
deriving DecidableEq

/-- Observable outcome of `Configure`: the returned error (if any),
whether the inactive handle was acquired, whether its deferred
`CleanUp()` ran, and whether the activated capture handle was stored in
`w.handle`. -/
structure ConfigureOutcome where
  err : Option String
  inactiveAcquired : Bool
  inactiveReleased : Bool
  handleActivated : Bool
deriving DecidableEq

/-- Capture-device setup, `Configure` in the source: acquires an
inactive pcap handle (with `defer ihandle.CleanUp()` registered right
after the acquisition succeeds, so the inactive handle is released on
every later path), sets monitor mode, snap length and timeout, then
activates the handle into `w.handle`; the first failing step's error is
returned. -/
def Configure (env : CaptureEnv) : ConfigureOutcome :=
  match env.newInactiveHandleErr with
  | some e =>
    { err := some e, inactiveAcquired := false,
      inactiveReleased := false, handleActivated := false }
  | none =>
    match env.setRFMonErr with
    | some e =>
      { err := some e, inactiveAcquired := true,
        inactiveReleased := true, handleActivated := false }
    | none =>
      match env.setSnapLenErr with
      | some e =>
        { err := some e, inactiveAcquired := true,
          inactiveReleased := true, handleActivated := false }
      | none =>
        match env.setTimeoutErr with
        | some e =>
          { err := some e, inactiveAcquired := true,
            inactiveReleased := true, handleActivated := false }
        | none =>
          match env.activateErr with
          | some e =>
            { err := some e, inactiveAcquired := true,
              inactiveReleased := true, handleActivated := false }
          | none =>
            { err := none, inactiveAcquired := true,
              inactiveReleased := true, handleActivated := true }

/-- Modelled from the spec: `session.ErrAlreadyStarted`, the
"already running" lifecycle error — the session package is not part of
`src/`. Only its identity matters here. -/
def ErrAlreadyStarted : String := "module is already running"

/-- Observable outcome of `Start`: the returned error (if any), whether
`Configure` was invoked, the running flag after the call, and the
inactive-handle bookkeeping carried over from `Configure` (false when
`Configure` never ran). -/
structure StartOutcome where
  err : Option String
  configureCalled : Bool
  runningAfter : Bool
  inactiveAcquired : Bool
  inactiveReleased : Bool
deriving DecidableEq

/-- Module start, `Start` in the source: returns
`session.ErrAlreadyStarted` without configuring when already running;
otherwise runs `Configure` and, on its failure, returns that error
without setting the running flag; on success sets the running flag (the
capture goroutine itself is modelled separately by
`captureLoopBody`). -/
def Start (running : Bool) (env : CaptureEnv) : StartOutcome :=
  if running then
    { err := some ErrAlreadyStarted, configureCalled := false,
      runningAfter := true, inactiveAcquired := false,
      inactiveReleased := false }
  else
    let c := Configure env
    match c.err with
    | some e =>
      { err := some e, configureCalled := true, runningAfter := false,
        inactiveAcquired := c.inactiveAcquired,
        inactiveReleased := c.inactiveReleased }
    | none =>
      { err := none, configureCalled := true, runningAfter := true,
        inactiveAcquired := c.inactiveAcquired,
        inactiveReleased := c.inactiveReleased }

/-- Calls the capture-loop body can make for one frame, in program
order. -/
inductive LoopAction
  | updateStatsAct (p : Packet)
  | discoverAccessPointsAct (p : Packet)
  | discoverClientsAct (bs : HwAddr) (p : Packet)
deriving DecidableEq

/-- Tests whether a loop action is the statistics update. -/
def LoopAction.isStats : LoopAction → Bool
  | LoopAction.updateStatsAct _ => true
  | _ => false

/-- Tests whether a loop action is AP discovery. -/
def LoopAction.isAPDiscovery : LoopAction → Bool
  | LoopAction.discoverAccessPointsAct _ => true
  | _ => false

/-- Tests whether a loop action is client discovery. -/
def LoopAction.isClientDiscovery : LoopAction → Bool
  | LoopAction.discoverClientsAct _ _ => true
  | _ => false

/-- Per-frame body of the capture loop inside `Start`'s goroutine:
`updateStats(packet)` first, then — selected by `len(w.accessPoint)` —
either `discoverAccessPoints(packet)` (empty AP filter) or
`discoverClients(w.accessPoint, packet)` (non-empty AP filter). The
result is the list of calls made for this frame, in program order. -/
def captureLoopBody (accessPoint : HwAddr) (p : Packet) :
    List LoopAction :=
  LoopAction.updateStatsAct p ::
    (if accessPoint = [] then [LoopAction.discoverAccessPointsAct p]
     else [LoopAction.discoverClientsAct accessPoint p])

/-! Theorems. -/

/-- Bridge from Go's truncating division to euclidean division on
nonpositive numerators, so `omega` can finish arithmetic goals. -/
theorem tdiv_five_of_nonpos (x : Int) (hx : x ≤ 0) :
    x.tdiv 5 = -((-x) / 5) := by
  conv_lhs => rw [show x = -(-x) by ring]
  rw [Int.neg_tdiv, Int.tdiv_eq_ediv (by omega) (by norm_num)]

/-- Claim C6: for every frequency value `freq` in MHz, if `freq ≤ 2484`
then `mhz2chan` returns `((freq - 2412) / 5) + 1` using (truncating)
integer division, and for every `freq > 2484` it returns 0; in
particular `mhz2chan 2412 = 1`, `mhz2chan 2437 = 6`,
`mhz2chan 2462 = 11`, and `mhz2chan 5180 = 0`. -/
theorem mhz2chan_spec :
    (∀ freq : Int, freq ≤ 2484 → mhz2chan freq = (freq - 2412).tdiv 5 + 1)
    ∧ (∀ freq : Int, freq > 2484 → mhz2chan freq = 0)
    ∧ mhz2chan 2412 = 1 ∧ mhz2chan 2437 = 6 ∧ mhz2chan 2462 = 11
    ∧ mhz2chan 5180 = 0 := by
  refine ⟨?_, ?_, by decide, by decide, by decide, by decide⟩
  · intro f h
    simp [mhz2chan, h]
  · intro f h
    simp [mhz2chan, not_le.mpr h]

/-- Witness for C6: the branch equations of `mhz2chan_spec`
instantiated at 2412 and 5180. -/
theorem mhz2chan_spec_witness :
    mhz2chan 2412 = ((2412 : Int) - 2412).tdiv 5 + 1 ∧ mhz2chan 5180 = 0 :=
  ⟨mhz2chan_spec.1 2412 (by decide), mhz2chan_spec.2.1 5180 (by decide)⟩

/-- Claim C10: for every frequency `freq ≤ 2484` the channel function
returns `((freq - 2412) / 5) + 1` without clamping, so some accepted
inputs yield values that are not valid 802.11 channel numbers: every
`freq ≤ 2402` yields a result `≤ -1` (e.g. 2402 yields -1), and every
`freq` between 2403 and 2407 yields 0, indistinguishable from the
unknown-channel sentinel. -/
theorem mhz2chan_out_of_band_spec :
    (∀ freq : Int, freq ≤ 2402 → mhz2chan freq ≤ -1)
    ∧ (∀ freq : Int, 2403 ≤ freq → freq ≤ 2407 → mhz2chan freq = 0)
    ∧ mhz2chan 2402 = -1 := by
  refine ⟨?_, ?_, by decide⟩
  · intro f h
    have h24 : f ≤ 2484 := by omega
    rw [mhz2chan, if_pos h24, tdiv_five_of_nonpos (f - 2412) (by omega)]
    omega
  · intro f h1 h2
    have h24 : f ≤ 2484 := by omega
    rw [mhz2chan, if_pos h24, tdiv_five_of_nonpos (f - 2412) (by omega)]
    omega

/-- Witness for C10: the non-positive results of
`mhz2chan_out_of_band_spec` at 2402 and 2405. -/
theorem mhz2chan_out_of_band_spec_witness :
    mhz2chan 2402 ≤ -1 ∧ mhz2chan 2405 = 0 :=
  ⟨mhz2chan_out_of_band_spec.1 2402 (by decide),
   mhz2chan_out_of_band_spec.2.1 2405 (by decide) (by decide)⟩

/-- Claim C8: on every iteration of the capture loop exactly one
discovery mode runs per frame, selected by the AP-filter state:
statistics are updated first, AP discovery runs iff the AP filter is
empty, client discovery (against the filtered AP) runs iff it is
non-empty, and the two discovery modes are never both invoked for the
same frame. -/
theorem captureLoopBody_spec (accessPoint : HwAddr) (p : Packet) :
    (captureLoopBody accessPoint p).head?
        = some (LoopAction.updateStatsAct p)
    ∧ (captureLoopBody accessPoint p).any LoopAction.isAPDiscovery
        = accessPoint.isEmpty
    ∧ (captureLoopBody accessPoint p).any LoopAction.isClientDiscovery
        = !accessPoint.isEmpty
    ∧ (captureLoopBody accessPoint p).countP
        (fun a => a.isAPDiscovery || a.isClientDiscovery) = 1 := by
  cases accessPoint with
  | nil =>
    simp [captureLoopBody, LoopAction.isAPDiscovery,
      LoopAction.isClientDiscovery, List.countP_cons, List.countP_nil]
  | cons x xs =>
    simp [captureLoopBody, LoopAction.isAPDiscovery,
      LoopAction.isClientDiscovery, List.countP_cons, List.countP_nil]

/-- Claim C3: with an initialized registry, `startDeauth` errors (and
issues no bursts) iff the AP filter is unset; with both filters set it
issues exactly one burst against that pair; with only the AP filter set
it issues one burst per station currently in the WiFi registry. -/
theorem startDeauth_spec (accessPoint client : HwAddr)
    (stations : List HwAddr) :
    (startDeauth accessPoint client (some stations)
        = DeauthOutcome.targetError "No base station or client set."
      ↔ accessPoint = [])
    ∧ (accessPoint ≠ [] → client ≠ [] →
        startDeauth accessPoint client (some stations)
          = DeauthOutcome.bursts [(accessPoint, client)])
    ∧ (accessPoint ≠ [] → client = [] →
        startDeauth accessPoint client (some stations)
          = DeauthOutcome.bursts (stations.map fun hw => (accessPoint, hw))) := by
  unfold startDeauth
  by_cases hap : accessPoint = [] <;> by_cases hcl : client = [] <;>
    simp [hap, hcl]

/-- Witness for C3: `startDeauth_spec` at a concrete AP filter with no
client filter and a one-station registry yields exactly one burst
against that station. -/
theorem startDeauth_spec_witness :
    startDeauth [1, 2, 3, 4, 5, 6] [] (some [[7, 8, 9, 10, 11, 12]])
      = DeauthOutcome.bursts [([1, 2, 3, 4, 5, 6], [7, 8, 9, 10, 11, 12])] :=
  (startDeauth_spec [1, 2, 3, 4, 5, 6] [] [[7, 8, 9, 10, 11, 12]]).2.2
    (by decide) rfl

/-- Claim C9: with the AP filter set, the client filter unset, and the
WiFi registry never initialized (nil pointer), `startDeauth`
dereferences the nil registry when enumerating its stations instead of
returning an error — the error branch does not cover this reachable
state. -/
theorem startDeauth_nil_registry (ap : HwAddr) (h : ap ≠ []) :
    startDeauth ap [] none = DeauthOutcome.nilDereference
    ∧ ∀ msg, startDeauth ap [] none ≠ DeauthOutcome.targetError msg := by
  unfold startDeauth
  simp [h]

/-- Witness for C9: `startDeauth_nil_registry` at a concrete AP
filter. -/
theorem startDeauth_nil_registry_witness :
    startDeauth [1, 2, 3, 4, 5, 6] [] none = DeauthOutcome.nilDereference :=
  (startDeauth_nil_registry [1, 2, 3, 4, 5, 6] (by decide)).1

/-- Claim C2: one invocation of the deauth burst against `(ap, client)`
transmits exactly 128 forged deauthentication frames absent
construction/transmission failures — for each sequence number 0..63 one
AP-to-client and one client-to-AP frame, both with BSSID `ap` (the
third `NewDot11Deauth` address) and the class-2-from-nonauthenticated
reason code; a failure for one packet only skips ahead to the next
sequence number, so every sequence number whose packets succeed is
still transmitted. -/
theorem sendDeauthPacket_spec (ap client : HwAddr) (ok1 ok2 : Nat → Bool) :
    ((∀ s, ok1 s = true) → (∀ s, ok2 s = true) →
      (sendDeauthPacket ap client ok1 ok2).length = 128)
    ∧ (∀ s, s < 64 → ok1 s = true → ok2 s = true →
        deauthFrameAPToClient ap client s ∈ sendDeauthPacket ap client ok1 ok2
        ∧ deauthFrameClientToAP ap client s ∈ sendDeauthPacket ap client ok1 ok2)
    ∧ (∀ f ∈ sendDeauthPacket ap client ok1 ok2,
        f.a3 = ap ∧ f.reason = Dot11Reason.class2FromNonAuth ∧ f.seq < 64
        ∧ (f = deauthFrameAPToClient ap client f.seq
           ∨ f = deauthFrameClientToAP ap client f.seq)) := by
  refine ⟨?_, ?_, ?_⟩
  · intro h1 h2
    have hok1 : ok1 = fun _ => true := funext h1
    have hok2 : ok2 = fun _ => true := funext h2
    subst hok1 hok2
    have hsum : ∀ l : List ℕ,
        (List.map (List.length ∘ fun seq =>
          [deauthFrameAPToClient ap client seq,
           deauthFrameClientToAP ap client seq]) l).sum = 2 * l.length := by
      intro l
      induction l with
      | nil => simp
      | cons x xs ih =>
        simp only [List.map_cons, List.sum_cons, List.length_cons, ih,
          Function.comp]
        simp
        omega
    simp [sendDeauthPacket, List.length_flatMap, hsum]
  · intro s hs h1 h2
    constructor
    · exact List.mem_flatMap.mpr
        ⟨s, List.mem_range.mpr hs, by simp [h1, h2]⟩
    · exact List.mem_flatMap.mpr
        ⟨s, List.mem_range.mpr hs, by simp [h1, h2]⟩
  · intro f hf
    rcases List.mem_flatMap.mp hf with ⟨s, hs, hin⟩
    have hs64 : s < 64 := List.mem_range.mp hs
    by_cases h1 : ok1 s = true
    · rw [if_pos h1] at hin
      rcases List.mem_cons.mp hin with h | h
      · subst h
        simp [deauthFrameAPToClient, hs64]
      · by_cases h2 : ok2 s = true
        · rw [if_pos h2] at h
          rcases List.mem_singleton.mp h with rfl
          simp [deauthFrameClientToAP, hs64]
        · rw [if_neg h2] at h
          exact absurd h (List.not_mem_nil f)
    · rw [if_neg h1] at hin
      exact absurd hin (List.not_mem_nil f)

/-- Witness for C2: `sendDeauthPacket_spec` with all-success oracles at
concrete addresses transmits exactly 128 frames, including both
directions of sequence number 0. -/
theorem sendDeauthPacket_spec_witness :
    (sendDeauthPacket [1, 2, 3, 4, 5, 6] [7, 8, 9, 10, 11, 12]
        (fun _ => true) (fun _ => true)).length = 128
    ∧ deauthFrameAPToClient [1, 2, 3, 4, 5, 6] [7, 8, 9, 10, 11, 12] 0
        ∈ sendDeauthPacket [1, 2, 3, 4, 5, 6] [7, 8, 9, 10, 11, 12]
            (fun _ => true) (fun _ => true) :=
  ⟨(sendDeauthPacket_spec [1, 2, 3, 4, 5, 6] [7, 8, 9, 10, 11, 12]
      (fun _ => true) (fun _ => true)).1 (fun _ => rfl) (fun _ => rfl),
   ((sendDeauthPacket_spec [1, 2, 3, 4, 5, 6] [7, 8, 9, 10, 11, 12]
      (fun _ => true) (fun _ => true)).2.1 0 (by decide) rfl rfl).1⟩

/-- Claim C4: AP discovery classifies a frame as an AP
beacon/probe-response — and emits
`AddIfNew(ssid, address3, hasName := true, mhz2chan(frequency))` — iff
a radiotap layer is present, an information element with the SSID id is
present, a base 802.11 header is present, the destination (address1)
is the broadcast address, and the SSID is non-empty; anything else is a
silent `none`. -/
theorem discoverAccessPoints_spec (p : Packet) :
    (∀ rt di d, p.radiotap = some rt → p.dot11info = some di →
        di.id = Dot11InformationElementIDSSID → p.dot11 = some d →
        d.address1 = BroadcastMac → di.info ≠ [] →
        discoverAccessPoints p = some
          { ssid := di.info, mac := d.address3, hasName := true,
            channel := mhz2chan rt.channelFrequency })
    ∧ ((discoverAccessPoints p).isSome = true ↔
        ∃ rt di d, p.radiotap = some rt ∧ p.dot11info = some di ∧
          di.id = Dot11InformationElementIDSSID ∧ p.dot11 = some d ∧
          d.address1 = BroadcastMac ∧ di.info ≠ []) := by
  constructor
  · intro rt di d h1 h2 h3 h4 h5 h6
    simp [discoverAccessPoints, h1, h2, h3, h4, h5,
      List.length_pos, h6]
  · rcases hrt : p.radiotap with _ | rt
    · simp [discoverAccessPoints, hrt]
    rcases hdi : p.dot11info with _ | di
    · simp [discoverAccessPoints, hrt, hdi]
    rcases hd : p.dot11 with _ | d
    · by_cases hid : di.id = Dot11InformationElementIDSSID <;>
        simp [discoverAccessPoints, hrt, hdi, hd, hid]
    by_cases hid : di.id = Dot11InformationElementIDSSID
    · by_cases hb : d.address1 = BroadcastMac
      · by_cases hssid : di.info = []
        · simp [discoverAccessPoints, hrt, hdi, hd, hid, hb, hssid]
        · simp [discoverAccessPoints, hrt, hdi, hd, hid, hb,
            List.length_pos, hssid]
      · simp [discoverAccessPoints, hrt, hdi, hd, hid, hb]
    · simp [discoverAccessPoints, hrt, hdi, hd, hid]

/-- Concrete beacon frame: radiotap at 2437 MHz, SSID element "lab",
broadcast destination, BSSID `01:02:03:04:05:06`. -/
def apBeaconPacket : Packet :=
  { radiotap := some { channelFrequency := 2437 },
    dot11info := some { id := 0, info := [108, 97, 98] },
    dot11 := some
      { mainType := Dot11MainType.mgmt, toDS := false, fromDS := false,
        address1 := [255, 255, 255, 255, 255, 255],
        address2 := [1, 2, 3, 4, 5, 6],
        address3 := [1, 2, 3, 4, 5, 6],
        address4 := [] },
    data := [0, 1, 2, 3] }

/-- Witness for C4: `discoverAccessPoints_spec` classifies the concrete
beacon frame and emits the expected `AddIfNew` call. -/
theorem discoverAccessPoints_spec_witness :
    discoverAccessPoints apBeaconPacket = some
      { ssid := [108, 97, 98], mac := [1, 2, 3, 4, 5, 6],
        hasName := true, channel := mhz2chan 2437 } :=
  (discoverAccessPoints_spec apBeaconPacket).1 _ _ _ rfl rfl rfl rfl rfl
    (by decide)

/-- Claim C5: given AP filter `bs`, client discovery emits
`AddIfNew("", address2, hasName := false, mhz2chan(frequency))` iff a
radiotap layer and a base 802.11 header are present, the main type is
Data, ToDS is set while FromDS is clear, and the BSSID field (address1)
equals `bs`; anything else is a silent `none`. -/
theorem discoverClients_spec (bs : HwAddr) (p : Packet) :
    (∀ rt d, p.radiotap = some rt → p.dot11 = some d →
        d.mainType = Dot11MainType.data → d.toDS = true → d.fromDS = false →
        d.address1 = bs →
        discoverClients bs p = some
          { ssid := [], mac := d.address2, hasName := false,
            channel := mhz2chan rt.channelFrequency })
    ∧ ((discoverClients bs p).isSome = true ↔
        ∃ rt d, p.radiotap = some rt ∧ p.dot11 = some d ∧
          d.mainType = Dot11MainType.data ∧ d.toDS = true ∧
          d.fromDS = false ∧ d.address1 = bs) := by
  constructor
  · intro rt d h1 h2 h3 h4 h5 h6
    simp [discoverClients, h1, h2, h3, h4, h5, h6]
  · rcases hrt : p.radiotap with _ | rt
    · simp [discoverClients, hrt]
    rcases hd : p.dot11 with _ | d
    · simp [discoverClients, hrt, hd]
    by_cases hty : d.mainType = Dot11MainType.data
    · by_cases hto : d.toDS = true
      · by_cases hfr : d.fromDS = false
        · by_cases hbs : d.address1 = bs
          · simp [discoverClients, hrt, hd, hty, hto, hfr, hbs]
          · simp [discoverClients, hrt, hd, hty, hto, hfr, hbs]
        · simp [discoverClients, hrt, hd, hty, hto, hfr]
      · simp [discoverClients, hrt, hd, hty, hto]
    · simp [discoverClients, hrt, hd, hty]

/-- Concrete station-to-AP data frame: radiotap at 2412 MHz, Data type,
ToDS set, FromDS clear, BSSID `01:02:03:04:05:06`, source
`07:08:09:0a:0b:0c`. -/
def clientDataPacket : Packet :=
  { radiotap := some { channelFrequency := 2412 },
    dot11info := none,
    dot11 := some
      { mainType := Dot11MainType.data, toDS := true, fromDS := false,
        address1 := [1, 2, 3, 4, 5, 6],
        address2 := [7, 8, 9, 10, 11, 12],
        address3 := [1, 2, 3, 4, 5, 6],
        address4 := [] },
    data := [0, 1, 2, 3, 4, 5, 6, 7, 8, 9] }

/-- Witness for C5: `discoverClients_spec` classifies the concrete
station-to-AP data frame and emits the expected `AddIfNew` call. -/
theorem discoverClients_spec_witness :
    discoverClients [1, 2, 3, 4, 5, 6] clientDataPacket = some
      { ssid := [], mac := [7, 8, 9, 10, 11, 12],
        hasName := false, channel := mhz2chan 2412 } :=
  (discoverClients_spec [1, 2, 3, 4, 5, 6] clientDataPacket).1 _ _
    rfl rfl rfl rfl rfl rfl

/-- Per-address contribution of one `Collect` call as seen at query
point `b`: the collected byte count if the collected address is
non-empty and equal to `b`, else 0. -/
def statContrib (a b : HwAddr) (n : Nat) : Nat :=
  if a ≠ [] ∧ b = a then n else 0

/-- Pointwise reading of one `Collect` call. -/
theorem Collect_apply (stats : WiFiStats) (a : HwAddr) (n : Nat)
    (b : HwAddr) : Collect stats a n b = stats b + statContrib a b n := by
  unfold Collect statContrib
  by_cases ha : a = [] <;> by_cases hb : b = a <;> simp [ha, hb]

/-- Counterexample to claim C1: a captured data frame with a radiotap
layer and an 802.11 header carrying a non-empty receiver address, but
no SSID information element (the common case for data frames). Its 10
data bytes are NOT added to the statistics under the receiver address:
`updateStats` leaves the zero counters unchanged, contradicting
"for every captured frame, regardless of its classification
outcome". -/
theorem updateStats_skips_frames_without_ssid_element :
    clientDataPacket.dot11info = none
    ∧ (clientDataPacket.dot11.map Dot11.address1)
        = some [1, 2, 3, 4, 5, 6]
    ∧ ([1, 2, 3, 4, 5, 6] : HwAddr) ≠ []
    ∧ clientDataPacket.data.length = 10
    ∧ updateStats (fun _ => 0) clientDataPacket [1, 2, 3, 4, 5, 6] = 0
    ∧ updateStats (fun _ => 0) clientDataPacket [1, 2, 3, 4, 5, 6]
        ≠ (fun _ => (0 : Nat)) [1, 2, 3, 4, 5, 6]
            + clientDataPacket.data.length := by
  refine ⟨rfl, rfl, by decide, rfl, rfl, by decide⟩

/-- Claim C1 (amended): the capture loop passes every frame to
`updateStats`, but `updateStats` accumulates bytes only for frames
carrying a radiotap layer, an information element with the SSID id, and
a base 802.11 header; for those frames the frame's total byte length is
added under each of the four (non-empty) 802.11 address fields — empty
address fields are no-ops — and every other frame leaves the statistics
unchanged. -/
theorem updateStats_spec (stats : WiFiStats) (p : Packet) :
    (∀ rt di d, p.radiotap = some rt → p.dot11info = some di →
        di.id = Dot11InformationElementIDSSID → p.dot11 = some d →
        ∀ b, updateStats stats p b
          = stats b + statContrib d.address1 b p.data.length
              + statContrib d.address2 b p.data.length
              + statContrib d.address3 b p.data.length
              + statContrib d.address4 b p.data.length)
    ∧ (p.radiotap = none → updateStats stats p = stats)
    ∧ (p.dot11info = none → updateStats stats p = stats)
    ∧ (∀ di, p.dot11info = some di →
        di.id ≠ Dot11InformationElementIDSSID → updateStats stats p = stats)
    ∧ (p.dot11 = none → updateStats stats p = stats) := by
  refine ⟨?_, ?_, ?_, ?_, ?_⟩
  · intro rt di d h1 h2 h3 h4 b
    simp [updateStats, h1, h2, h3, h4, Collect_apply]
  · intro h
    simp [updateStats, h]
  · intro h
    rcases hrt : p.radiotap with _ | rt <;> simp [updateStats, hrt, h]
  · intro di hdi hid
    rcases hrt : p.radiotap with _ | rt <;>
      simp [updateStats, hrt, hdi, hid]
  · intro h
    rcases hrt : p.radiotap with _ | rt
    · simp [updateStats, hrt]
    rcases hdi : p.dot11info with _ | di
    · simp [updateStats, hrt, hdi]
    by_cases hid : di.id = Dot11InformationElementIDSSID <;>
      simp [updateStats, hrt, hdi, hid, h]

/-- Witness for C1 (amended): on the concrete beacon frame (4 data
bytes; address2 and address3 both equal to the queried address,
address1 the broadcast address, address4 absent) the statistics at that
address grow from 0 to 8. -/
theorem updateStats_spec_witness :
    updateStats (fun _ => 0) apBeaconPacket [1, 2, 3, 4, 5, 6] = 8 := by
  rw [(updateStats_spec (fun _ => 0) apBeaconPacket).1 _ _ _
    rfl rfl rfl rfl [1, 2, 3, 4, 5, 6]]
  decide

/-- Claim C7: `Start` returns the already-running error and performs no
configuration when the engine is already running; otherwise it runs
`Configure` first, and when `Configure` fails, `Start` returns that
error without transitioning to running, with the partially-acquired
inactive capture handle released on every failure path. -/
theorem Start_spec (running : Bool) (env : CaptureEnv) :
    (running = true →
      Start running env
        = { err := some ErrAlreadyStarted, configureCalled := false,
            runningAfter := true, inactiveAcquired := false,
            inactiveReleased := false })
    ∧ (running = false → (Start running env).configureCalled = true)
    ∧ (running = false → ∀ e, (Configure env).err = some e →
        (Start running env).err = some e
        ∧ (Start running env).runningAfter = false)
    ∧ ((Configure env).inactiveAcquired = true →
        (Configure env).inactiveReleased = true)
    ∧ (running = false → (Start running env).inactiveAcquired = true →
        (Start running env).inactiveReleased = true) := by
  rcases env with ⟨e1, e2, e3, e4, e5⟩
  refine ⟨?_, ?_, ?_, ?_, ?_⟩ <;>
    cases running <;>
      cases e1 <;> cases e2 <;> cases e3 <;> cases e4 <;> cases e5 <;>
        simp [Start, Configure]

/-- Witness for C7: with a concrete environment whose monitor-mode step
fails, `Start_spec` gives that `Start` propagates the error and does
not transition to running. -/
theorem Start_spec_witness :
    (Start false
        { newInactiveHandleErr := none,
          setRFMonErr := some "rfmon failed", setSnapLenErr := none,
          setTimeoutErr := none, activateErr := none }).err
      = some "rfmon failed"
    ∧ (Start false
        { newInactiveHandleErr := none,
          setRFMonErr := some "rfmon failed", setSnapLenErr := none,
          setTimeoutErr := none, activateErr := none }).runningAfter
      = false :=
  (Start_spec false
    { newInactiveHandleErr := none, setRFMonErr := some "rfmon failed",
      setSnapLenErr := none, setTimeoutErr := none,
      activateErr := none }).2.2.1 rfl "rfmon failed" rfl

end BettercapWifiRecon
